import Mathlib

set_option autoImplicit false

/-!
# Verification of the LLM code-deployment pipeline

Shallow embedding of the core of the `Proj1` repository: the provisioning
pipeline (`processAppRequest` in `src/services/appGenerator.js`), the
GitHub service (`createGitHubRepo`, `deployToPages`, `updateRepository` in
`src/services/githubService.js`), the evaluation notifier with retries
(`submitEvaluation` in `src/services/evaluationService.js`), the secret
middleware (`verifySecret` in `src/middleware/auth.js`) and the API routes
(`src/routes/api.js`).

Outbound effects (HTTP calls of axios and octokit, git subprocess calls,
filesystem operations, sleeps) are modelled by an explicit event trace; the
responses of the external world (the LLM, the repository host, the
evaluation callback) are inputs of the embedded functions, so every run of
the JavaScript corresponds to one evaluation of the Lean functions at the
matching world.
-/

namespace Proj1

/-! ## The evaluation notifier (`src/services/evaluationService.js`) -/

/-- The JSON body posted to the evaluation callback:
`{ email, task, round, nonce, repo_url, commit_sha, pages_url }`. -/
structure Payload where
  email : String
  task : String
  round : Nat
  nonce : String
  repo_url : String
  commit_sha : String
  pages_url : String
deriving DecidableEq, Repr

/-- Argument of `submitEvaluation`: the payload fields plus the
destination `evaluation_url`. -/
structure EvaluationData where
  email : String
  task : String
  round : Nat
  nonce : String
  repo_url : String
  commit_sha : String
  pages_url : String
  evaluation_url : String
deriving DecidableEq, Repr

/-- The `payload` object built at the top of `submitEvaluation`. -/
def mkPayload (d : EvaluationData) : Payload :=
  { email := d.email, task := d.task, round := d.round, nonce := d.nonce,
    repo_url := d.repo_url, commit_sha := d.commit_sha, pages_url := d.pages_url }

/-- What one HTTP POST attempt meets in the outside world: either a
transport-level failure, or an HTTP response with the given status code. -/
inductive HttpAttempt where
  | transportError (msg : String)
  | response (status : Nat)
deriving DecidableEq, Repr

/-- Observable effects of the embedded code, in program order. -/
inductive PEvent where
  | ensureDir (dir : String)
  | writeFile (path : String)
  | createRepo (name : String)
  | gitInit
  | gitAddConfig (key value : String)
  | gitAdd (spec : String)
  | gitCommit (msg : String)
  | gitBranch (name : String)
  | gitAddRemote (name url : String)
  | gitPush (remote branch : String)
  | enablePages (owner repo : String)
  | sleep (ms : Nat)
  | post (p : Payload) (timeoutMs : Nat)
  | removeDir (dir : String)
deriving DecidableEq, Repr

/-- `axios.post` resolves exactly for 2xx statuses (default
`validateStatus`); a transport error or a non-2xx status rejects, with
the axios error message for the latter. -/
def axiosPost (a : HttpAttempt) : Except String Nat :=
  match a with
  | .transportError msg => .error msg
  | .response s =>
      if 200 ≤ s ∧ s < 300 then .ok s
      else .error ("Request failed with status code " ++ toString s)

/-- How a call of `submitEvaluation` can end: return `{ success: true }`,
fall off the end of the function (JavaScript returns `undefined`), or
throw. -/
inductive NotifyResult where
  | success
  | undefinedReturn
  | thrown (msg : String)
deriving DecidableEq, Repr

/-- `const maxRetries = 5`. -/
def maxRetries : Nat := 5

/-- `const baseDelay = 1000`. -/
def baseDelay : Nat := 1000

/-- `const delay = baseDelay * Math.pow(2, attempt - 1)`. -/
def retryDelay (attempt : Nat) : Nat := baseDelay * 2 ^ (attempt - 1)

/-- The retry loop of `submitEvaluation`
(`for (let attempt = 1; attempt <= maxRetries; attempt++)`), written with
the remaining number of iterations as fuel; `responses n` is what the
n-th POST meets (`n = 0` initial attempt, `n ≥ 1` retries).  Each
iteration sleeps, posts with a 30s timeout, returns on status 200,
rethrows on the last failed attempt, and otherwise falls through to the
next iteration; an exhausted loop returns `undefined`. -/
def runRetries (responses : Nat → HttpAttempt) (pay : Payload) :
    Nat → Nat → NotifyResult × List PEvent
  | _, 0 => (.undefinedReturn, [])
  | attempt, fuel + 1 =>
      let d := retryDelay attempt
      match axiosPost (responses attempt) with
      | .ok s =>
          if s = 200 then (.success, [.sleep d, .post pay 30000])
          else
            let r := runRetries responses pay (attempt + 1) fuel
            (r.1, .sleep d :: .post pay 30000 :: r.2)
      | .error msg =>
          if attempt = maxRetries then
            (.thrown ("Failed to submit evaluation after " ++ toString maxRetries
                ++ " attempts: " ++ msg),
             [.sleep d, .post pay 30000])
          else
            let r := runRetries responses pay (attempt + 1) fuel
            (r.1, .sleep d :: .post pay 30000 :: r.2)

/-- `submitEvaluation(evaluationData)`: one initial POST with a 30s
timeout; a 200 returns success, any other resolved status throws
`Unexpected status code` into the surrounding catch, and any rejection
also lands in the catch, which runs the retry loop. -/
def submitEvaluation (d : EvaluationData) (responses : Nat → HttpAttempt) :
    NotifyResult × List PEvent :=
  let payload := mkPayload d
  match axiosPost (responses 0) with
  | .ok s =>
      if s = 200 then (.success, [.post payload 30000])
      else
        let r := runRetries responses payload 1 maxRetries
        (r.1, .post payload 30000 :: r.2)
  | .error _ =>
      let r := runRetries responses payload 1 maxRetries
      (r.1, .post payload 30000 :: r.2)

/-- The POST events of a trace, with their payload and timeout. -/
def postsOf (evs : List PEvent) : List (Payload × Nat) :=
  evs.filterMap (fun e => match e with | .post p t => some (p, t) | _ => none)

/-- The sleep durations of a trace, in order. -/
def sleepsOf (evs : List PEvent) : List Nat :=
  evs.filterMap (fun e => match e with | .sleep ms => some ms | _ => none)

/-- The commit messages of a trace, in order. -/
def commitsOf (evs : List PEvent) : List String :=
  evs.filterMap (fun e => match e with | .gitCommit m => some m | _ => none)

/-- The names sent to the create-repository call, in order. -/
def createReposOf (evs : List PEvent) : List String :=
  evs.filterMap (fun e => match e with | .createRepo n => some n | _ => none)

/-- Whether the directory `dir` exists after the trace ran, starting from
a state where it does not: `ensureDir dir` and a file write under `dir`
create it, `removeDir dir` removes it recursively. -/
def dirExistsAfter (dir : String) (evs : List PEvent) : Bool :=
  evs.foldl
    (fun ex e =>
      match e with
      | .ensureDir d => if d = dir then true else ex
      | .writeFile p => if String.isPrefixOf (dir ++ "/") p then true else ex
      | .removeDir d => if d = dir then false else ex
      | _ => ex)
    false

/-! ## The content generator (`src/services/appGenerator.js`) -/

/-- One entry of the request's `attachments` array. -/
structure Attachment where
  name : String
  url : String
deriving DecidableEq, Repr

/-- Prefix of the fallback `index.html` up to and including `<p>Brief: `. -/
def fallbackIndexHtmlPre : String :=
  "<!DOCTYPE html>\n<html lang=\"en\">\n<head>\n    <meta charset=\"UTF-8\">\n    <meta name=\"viewport\" content=\"width=device-width, initial-scale=1.0\">\n    <title>Generated App</title>\n    <link rel=\"stylesheet\" href=\"style.css\">\n</head>\n<body>\n    <div class=\"container\">\n        <h1>Generated Application</h1>\n        <div id=\"app-content\">\n            <p>This is a fallback application generated when the LLM service is unavailable.</p>\n            <p>Brief: "

/-- Between the interpolated brief and the interpolated attachment list. -/
def fallbackIndexHtmlMid : String := "</p>\n            "

/-- Suffix of the fallback `index.html` after the attachment list. -/
def fallbackIndexHtmlSuf : String :=
  "\n        </div>\n    </div>\n    <script src=\"script.js\"></script>\n</body>\n</html>"

/-- `attachments.map(att => ...).join('')` in the fallback `index.html`:
the concatenation of one paragraph per attachment. -/
def fallbackAttachmentLines : List Attachment → String
  | [] => ""
  | att :: rest =>
      "<p>Attachment: " ++ att.name ++ "</p>" ++ fallbackAttachmentLines rest

/-- The `index.html` entry of `createFallbackApp`. -/
def fallbackIndexHtml (brief : String) (attachments : List Attachment) : String :=
  fallbackIndexHtmlPre ++ brief ++ fallbackIndexHtmlMid
    ++ fallbackAttachmentLines attachments ++ fallbackIndexHtmlSuf

/-- The `style.css` entry of `createFallbackApp`. -/
def fallbackStyleCss : String :=
  "body \x7b\n    font-family: Arial, sans-serif;\n    margin: 0;\n    padding: 20px;\n    background-color: #f5f5f5;\n\x7d\n\n.container \x7b\n    max-width: 800px;\n    margin: 0 auto;\n    background: white;\n    padding: 20px;\n    border-radius: 8px;\n    box-shadow: 0 2px 10px rgba(0,0,0,0.1);\n\x7d\n\nh1 \x7b\n    color: #333;\n    text-align: center;\n\x7d\n\n#app-content \x7b\n    margin-top: 20px;\n\x7d"

/-- The `script.js` entry of `createFallbackApp`. -/
def fallbackScriptJs : String :=
  "// Generated JavaScript\nconsole.log(\x27App loaded successfully\x27);\n\n// Basic functionality\ndocument.addEventListener(\x27DOMContentLoaded\x27, function() \x7b\n    console.log(\x27DOM loaded\x27);\n    // Add your app logic here\n\x7d);"

/-- The `README.md` entry of `createFallbackApp`. -/
def fallbackReadme (brief : String) : String :=
  "# Generated Application\n\nThis application was generated based on the provided brief.\n\n## Brief\n"
    ++ brief
    ++ "\n\n## Setup\n1. Open index.html in a web browser\n2. The application should work immediately\n\n## License\nMIT License - see LICENSE file for details."

/-- The `LICENSE` entry of `createFallbackApp`. -/
def fallbackLicense : String :=
  "MIT License\n\nCopyright (c) 2024 Student\n\nPermission is hereby granted, free of charge, to any person obtaining a copy\nof this software and associated documentation files (the \"Software\"), to deal\nin the Software without restriction, including without limitation the rights\nto use, copy, modify, merge, publish, distribute, sublicense, and/or sell\ncopies of the Software, and to permit persons to whom the Software is\nfurnished to do so, subject to the following conditions:\n\nThe above copyright notice and this permission notice shall be included in all\ncopies or substantial portions of the Software.\n\nTHE SOFTWARE IS PROVIDED \"AS IS\", WITHOUT WARRANTY OF ANY KIND, EXPRESS OR\nIMPLIED, INCLUDING BUT NOT LIMITED TO THE WARRANTIES OF MERCHANTABILITY,\nFITNESS FOR A PARTICULAR PURPOSE AND NONINFRINGEMENT. IN NO EVENT SHALL THE\nAUTHORS OR COPYRIGHT HOLDERS BE LIABLE FOR ANY CLAIM, DAMAGES OR OTHER\nLIABILITY, WHETHER IN AN ACTION OF CONTRACT, TORT OR OTHERWISE, ARISING FROM,\nOUT OF OR IN CONNECTION WITH THE SOFTWARE OR THE USE OR OTHER DEALINGS IN THE\nSOFTWARE."

/-- `createFallbackApp(brief, attachments)`: the deterministic built-in
skeleton, an object with the five fixed file entries. -/
def createFallbackApp (brief : String) (attachments : List Attachment) :
    List (String × String) :=
  [("index.html", fallbackIndexHtml brief attachments),
   ("style.css", fallbackStyleCss),
   ("script.js", fallbackScriptJs),
   ("README.md", fallbackReadme brief),
   ("LICENSE", fallbackLicense)]

/-- What the external generative capability does on one call: the client
factory returns `null` (no `OPENAI_API_KEY`), the chat-completion call
throws, the returned content fails `JSON.parse`, or it parses into a
path-to-content mapping. -/
inductive LLMOutcome where
  | noApiKey
  | apiError (msg : String)
  | unparseable (raw : String)
  | parsed (files : List (String × String))
deriving DecidableEq, Repr

/-- `generateAppWithLLM(brief, attachments, checks, isUpdate)`.  The
`checks` and `isUpdate` arguments only shape the prompts sent to the
external capability; the returned file set is the parsed response when it
parses, and `createFallbackApp(brief, attachments)` when the client is
missing, the call throws, or the response fails to parse. -/
def generateAppWithLLM (brief : String) (attachments : List Attachment)
    (checks : List String) (isUpdate : Bool) (llm : LLMOutcome) :
    List (String × String) :=
  match llm with
  | .noApiKey => createFallbackApp brief attachments
  | .apiError _ => createFallbackApp brief attachments
  | .unparseable _ => createFallbackApp brief attachments
  | .parsed files => files

/-- The three failure modes of the external generative capability: no
credential, a call error, or an unparseable response. -/
def LLMFailed : LLMOutcome → Prop := fun l =>
  match l with
  | .parsed _ => False
  | _ => True

/-! ## The GitHub service (`src/services/githubService.js`) -/

/-- JavaScript `a || b` on an optional string: `undefined`/`null` and the
empty string are falsy. -/
def jsOr (a : Option String) (b : String) : String :=
  match a with
  | some s => if s = "" then b else s
  | none => b

/-- The `repo.data` fields read by `createGitHubRepo`. -/
structure RepoCreateResponse where
  htmlUrl : String
  cloneUrl : String
  ownerLogin : Option String
deriving DecidableEq, Repr

/-- Outcome of the create-repository API call (user or org variant):
success, or a rejection whose `.status` may be absent. -/
inductive RepoCreateOutcome where
  | ok (resp : RepoCreateResponse)
  | httpError (status : Option Nat)
deriving DecidableEq, Repr

/-- The configuration read from the environment by the GitHub service,
plus the commit hash `git log` reports after the commit. -/
structure GitEnv where
  username : String
  studentEmail : Option String
  githubToken : Option String
  org : Option String
  latestHash : String
deriving DecidableEq, Repr

/-- `git config user.email` value:
`process.env.STUDENT_EMAIL || username + "@users.noreply.github.com"`. -/
def committerEmail (env : GitEnv) : String :=
  jsOr env.studentEmail (env.username ++ "@users.noreply.github.com")

/-- The error thrown when repository creation is rejected. -/
def repoCreateFailMsg (status : Option Nat) : String :=
  "Failed to create repository (status "
    ++ (match status with | some s => toString s | none => "unknown")
    ++ "). Check that your token allows repo creation for the target owner (user/org) and includes repo/public_repo and pages permissions (or fine-grained equivalents). Docs: https://docs.github.com/rest/repos/repos#create-a-repository-for-the-authenticated-user"

/-- Return value of `createGitHubRepo`. -/
structure GitRepoResult where
  repoUrl : String
  commitSha : String
  cloneUrl : String
  ownerLogin : String
deriving DecidableEq, Repr

/-- `createGitHubRepo(repoName, sourceDir)`: create the remote repository
(throwing the guidance message if that call is rejected), then init,
configure identity, stage, commit with the fixed initial message, force
the `main` branch name, throw if `GITHUB_TOKEN` is missing, add the
token-authenticated remote and push, and read the commit hash back. -/
def createGitHubRepo (repoName : String) (env : GitEnv)
    (outcome : RepoCreateOutcome) : Except String GitRepoResult × List PEvent :=
  match outcome with
  | .httpError status => (.error (repoCreateFailMsg status), [.createRepo repoName])
  | .ok resp =>
      let gitEvs : List PEvent :=
        [.gitInit,
         .gitAddConfig ("user.name") env.username,
         .gitAddConfig ("user.email") (committerEmail env),
         .gitAdd ("."),
         .gitCommit ("Initial commit: Auto-generated application"),
         .gitBranch ("main")]
      match env.githubToken with
      | none =>
          (.error ("GITHUB_TOKEN is not set. Please configure it in your environment."),
           .createRepo repoName :: gitEvs)
      | some token =>
          let authedRemote := resp.cloneUrl.replace ("https://") ("https://" ++ token ++ "@")
          (.ok { repoUrl := resp.htmlUrl, commitSha := env.latestHash,
                 cloneUrl := resp.cloneUrl,
                 ownerLogin := jsOr resp.ownerLogin env.username },
           .createRepo repoName
             :: gitEvs
             ++ [.gitAddRemote ("origin") authedRemote, .gitPush ("origin") ("main")])

/-- Outcome of the enable-Pages API request. -/
inductive PagesOutcome where
  | ok
  | httpError (status : Nat)
deriving DecidableEq, Repr

/-- Return value of `deployToPages`. -/
structure PagesResult where
  pagesUrl : String
  enabled : Bool
deriving DecidableEq, Repr

/-- The purely textual public URL: `https://{owner}.github.io/{repo}/`. -/
def pagesUrlOf (ownerLogin repoName : String) : String :=
  "https://" ++ ownerLogin ++ ".github.io/" ++ repoName ++ "/"

/-- `deployToPages(repoName, ownerLoginParam)`: request Pages be enabled;
a rejection with status other than 409 is rethrown, a 409 is swallowed;
then wait a fixed 5000ms and derive the public URL textually. -/
def deployToPages (repoName : String) (ownerLoginParam : String) (env : GitEnv)
    (outcome : PagesOutcome) : Except Nat PagesResult × List PEvent :=
  let ownerLogin := if ownerLoginParam = "" then env.username else ownerLoginParam
  match outcome with
  | .httpError s =>
      if s = 409 then
        (.ok { pagesUrl := pagesUrlOf ownerLogin repoName, enabled := true },
         [.enablePages ownerLogin repoName, .sleep 5000])
      else (.error s, [.enablePages ownerLogin repoName])
  | .ok =>
      (.ok { pagesUrl := pagesUrlOf ownerLogin repoName, enabled := true },
       [.enablePages ownerLogin repoName, .sleep 5000])

/-- Return value of `updateRepository`. -/
structure UpdateResult where
  commitSha : String
  updated : Bool
deriving DecidableEq, Repr

/-- `updateRepository(repoName, sourceDir)`: stage all changes, commit
with the fixed update message, push, read the hash back.  Exported by the
GitHub service but never invoked by any route or by `processAppRequest`. -/
def updateRepository (repoName : String) (env : GitEnv) :
    Except String UpdateResult × List PEvent :=
  (.ok { commitSha := env.latestHash, updated := true },
   [.gitAdd ("."), .gitCommit ("Update: Modified application"),
    .gitPush ("origin") ("main")])

/-! ## The pipeline orchestrator (`processAppRequest` in `src/services/appGenerator.js`) -/

/-- The already-validated request body received by the routes. -/
structure RequestData where
  email : String
  task : String
  round : Nat
  nonce : String
  brief : String
  checks : List String
  evaluation_url : String
  attachments : List Attachment
deriving DecidableEq, Repr

/-- The external world one pipeline run interacts with: the generated
8-character unique suffix, the generative capability, the repository
host, the Pages API and the evaluation callback (`notify n` is what the
n-th notification POST meets). -/
structure World where
  uuidSuffix : String
  llm : LLMOutcome
  repoCreate : RepoCreateOutcome
  gitEnv : GitEnv
  pagesEnable : PagesOutcome
  notify : Nat → HttpAttempt

/-- The object `processAppRequest` returns on success. -/
structure AppResult where
  repo_url : String
  commit_sha : String
  pages_url : String
  evaluation_submitted : Bool
deriving DecidableEq, Repr

/-- An exception escaping `processAppRequest`: an `Error` with a message,
a rethrown HTTP error object carrying a status (the Pages error), or a
`TypeError` from a property access on `undefined`. -/
inductive PipeError where
  | thrown (msg : String)
  | httpError (status : Nat)
  | typeError (msg : String)
deriving DecidableEq, Repr

/-- How one call of `processAppRequest` ends. -/
inductive PipelineResult where
  | ok (r : AppResult)
  | error (e : PipeError)
deriving DecidableEq, Repr

/-- `path.join(__dirname, '../temp', repoName)`. -/
def tempDirOf (repoName : String) : String := "../temp/" ++ repoName

/-- The body of the inner `try` of `processAppRequest`: generate the
files, write them under the temp directory, create and push the
repository, enable Pages, submit the evaluation, and assemble the
result.  Reading `.success` on the `undefined` that `submitEvaluation`
can return is a `TypeError` in JavaScript. -/
def processInner (req : RequestData) (isUpdate : Bool) (w : World)
    (repoName tempDir : String) : PipelineResult × List PEvent :=
  let appFiles := generateAppWithLLM req.brief req.attachments req.checks isUpdate w.llm
  let writeEvs := appFiles.map (fun kv => PEvent.writeFile (tempDir ++ "/" ++ kv.1))
  match createGitHubRepo repoName w.gitEnv w.repoCreate with
  | (.error msg, gevs) => (.error (.thrown msg), writeEvs ++ gevs)
  | (.ok repoResult, gevs) =>
      match deployToPages repoName repoResult.ownerLogin w.gitEnv w.pagesEnable with
      | (.error status, pevs) => (.error (.httpError status), writeEvs ++ gevs ++ pevs)
      | (.ok pagesResult, pevs) =>
          let n := submitEvaluation
            { email := req.email, task := req.task, round := req.round,
              nonce := req.nonce, repo_url := repoResult.repoUrl,
              commit_sha := repoResult.commitSha,
              pages_url := pagesResult.pagesUrl,
              evaluation_url := req.evaluation_url } w.notify
          let evs := writeEvs ++ gevs ++ pevs ++ n.2
          match n.1 with
          | .success =>
              (.ok { repo_url := repoResult.repoUrl,
                     commit_sha := repoResult.commitSha,
                     pages_url := pagesResult.pagesUrl,
                     evaluation_submitted := true }, evs)
          | .undefinedReturn =>
              (.error (.typeError ("Cannot read properties of undefined (reading \x27success\x27)")),
               evs)
          | .thrown msg => (.error (.thrown msg), evs)

/-- `processAppRequest(requestData, isUpdate)`: build the fresh repo name
`task-{uuid8}`, create the temp directory, run the inner `try`, and in
the `finally` remove the temp directory on every exit path; the outer
`catch` only logs and rethrows. -/
def processAppRequest (req : RequestData) (isUpdate : Bool) (w : World) :
    PipelineResult × List PEvent :=
  let repoName := req.task ++ "-" ++ w.uuidSuffix
  let tempDir := tempDirOf repoName
  let inner := processInner req isUpdate w repoName tempDir
  (inner.1, .ensureDir tempDir :: inner.2 ++ [.removeDir tempDir])

/-! ## The API routes (`src/routes/api.js`) -/

/-- The HTTP response a route sends. -/
inductive ApiResponse where
  | success (task : String) (round : Nat) (nonce : String) (result : AppResult)
  | badRequest (message : String)
  | serverError (message : String)
deriving DecidableEq, Repr

/-- `router.post('/')`: run `processAppRequest(req.body)` and spread the
result into a success JSON, or answer 500 on a thrown error. -/
def apiRoutePost (req : RequestData) (w : World) : ApiResponse :=
  match (processAppRequest req false w).1 with
  | .ok r => .success req.task req.round req.nonce r
  | .error _ => .serverError ("Failed to process app request")

/-- `router.post('/update')`: reject non-round-2 requests with a 400,
otherwise run `processAppRequest(req.body, true)`. -/
def apiRouteUpdate (req : RequestData) (w : World) : ApiResponse :=
  if req.round ≠ 2 then .badRequest ("This endpoint is only for round 2 updates")
  else
    match (processAppRequest req true w).1 with
    | .ok r => .success req.task req.round req.nonce r
    | .error _ => .serverError ("Failed to process app update")

/-! ## The secret middleware (`src/middleware/auth.js`) -/

/-- `crypto.timingSafeEqual` on two byte buffers: throws a `RangeError`
when the lengths differ, otherwise compares contents. -/
def timingSafeEqual (a b : List Nat) : Except String Bool :=
  if a.length = b.length then .ok (decide (a = b))
  else .error ("Input buffers must have the same byte length")

/-- How the middleware leaves the request: an immediate JSON response
with a status, a call of `next()`, or an exception escaping the
handler. -/
inductive AuthOutcome where
  | response (status : Nat) (message : String)
  | next
  | thrown (msg : String)
deriving DecidableEq, Repr

/-- `verifySecret(req, res, next)`: secrets as UTF-8 byte sequences,
`none` for an absent value.  A missing or empty configured secret is
falsy and answers 500; `Buffer.from(undefined)` throws; then
`timingSafeEqual` throws on a byte-length mismatch, and only an
equal-length unequal pair reaches the 401 response. -/
def verifySecret (providedSecret expectedSecret : Option (List Nat)) : AuthOutcome :=
  match expectedSecret with
  | none => .response 500 ("Server configuration error")
  | some exp =>
      if exp = [] then .response 500 ("Server configuration error")
      else
        match providedSecret with
        | none => .thrown ("The first argument must be of type string or an instance of Buffer, TypedArray, or DataView. Received undefined")
        | some prov =>
            match timingSafeEqual prov exp with
            | .error msg => .thrown msg
            | .ok b => if b then .next else .response 401 ("Invalid secret")

/-! ## Concrete fixtures -/

/-- A validated round-1 request (the sample request of `test-api.sh`). -/
def reqA : RequestData :=
  { email := "student@example.com", task := "test-app-123", round := 1,
    nonce := "test-nonce-123",
    brief := "Create a simple calculator app that can add, subtract, multiply, and divide two numbers",
    checks := ["App has input fields for two numbers",
               "App has buttons for all four operations"],
    evaluation_url := "https://example.com/evaluate",
    attachments := [{ name := "sketch.png", url := "data:image/png;base64,AAAA" }] }

/-- The same task as a round-2 update request. -/
def reqB : RequestData :=
  { reqA with
    round := 2
    brief := "Add support for negative numbers and improve error handling" }

/-- A configured environment with a token. -/
def gitEnvA : GitEnv :=
  { username := "user", studentEmail := none, githubToken := some ("tok"),
    org := none, latestHash := "abc123def456" }

/-- The repository-host answer for a successfully created repository. -/
def repoRespFor (name : String) : RepoCreateResponse :=
  { htmlUrl := "https://github.com/user/" ++ name,
    cloneUrl := "https://github.com/user/" ++ name ++ ".git",
    ownerLogin := some ("user") }

/-- A callback that always answers HTTP 200. -/
def notifyAll200 : Nat → HttpAttempt := fun _ => .response 200

/-- A callback that always answers HTTP 500. -/
def notifyAll500 : Nat → HttpAttempt := fun _ => .response 500

/-- A callback that always answers HTTP 201. -/
def notifyAll201 : Nat → HttpAttempt := fun _ => .response 201

/-- A callback whose initial answer is HTTP 500 and whose retry answers
are all HTTP 201. -/
def notify500then201 : Nat → HttpAttempt :=
  fun n => if n = 0 then .response 500 else .response 201

/-- Round-1 world: unique suffix `aaaaaaaa`, everything succeeding. -/
def worldRound1 : World :=
  { uuidSuffix := "aaaaaaaa",
    llm := .parsed [("index.html", "<html></html>")],
    repoCreate := .ok (repoRespFor ("test-app-123-aaaaaaaa")),
    gitEnv := gitEnvA, pagesEnable := .ok, notify := notifyAll200 }

/-- Round-2 world: a fresh unique suffix `bbbbbbbb`, everything
succeeding. -/
def worldRound2 : World :=
  { worldRound1 with
    uuidSuffix := "bbbbbbbb"
    repoCreate := .ok (repoRespFor ("test-app-123-bbbbbbbb")) }

/-- Round-1 world whose evaluation callback answers HTTP 500 on every
attempt. -/
def worldNotify500 : World := { worldRound1 with notify := notifyAll500 }

/-- Round-1 world whose evaluation callback rejects once and then answers
HTTP 201 on every retry. -/
def worldNotify201 : World := { worldRound1 with notify := notify500then201 }

/-- Round-1 world where repository creation is rejected with a 403. -/
def worldRepoFail : World := { worldRound1 with repoCreate := .httpError (some 403) }

/-- Round-1 world where no generative credential is configured. -/
def worldLLMFail : World := { worldRound1 with llm := .noApiKey }

/-- A fixed `submitEvaluation` argument. -/
def evalDataA : EvaluationData :=
  { email := "student@example.com", task := "test-app-123", round := 1,
    nonce := "test-nonce-123",
    repo_url := "https://github.com/user/test-app-123-aaaaaaaa",
    commit_sha := "abc123def456",
    pages_url := "https://user.github.io/test-app-123-aaaaaaaa/",
    evaluation_url := "https://example.com/evaluate" }

/-! ## General lemmas about the notifier -/

/-- Each iteration of the retry loop emits exactly one sleep and one
POST; the k-th emitted sleep (0-based) lasts `retryDelay (attempt + k)`,
every POST carries the same payload with the 30s timeout, and at most
`fuel` iterations run. -/
theorem runRetries_spec (responses : Nat → HttpAttempt) (pay : Payload) :
    ∀ (fuel attempt : Nat), ∃ k, k ≤ fuel ∧
      postsOf (runRetries responses pay attempt fuel).2 =
        List.replicate k (pay, 30000) ∧
      sleepsOf (runRetries responses pay attempt fuel).2 =
        (List.range k).map (fun i => retryDelay (attempt + i)) := by
  intro fuel
  induction fuel with
  | zero =>
      intro attempt
      exact ⟨0, Nat.le_refl 0, rfl, rfl⟩
  | succ f ih =>
      intro attempt
      have step : ∀ (r : NotifyResult × List PEvent),
          (∃ k, k ≤ f ∧ postsOf r.2 = List.replicate k (pay, 30000) ∧
            sleepsOf r.2 = (List.range k).map (fun i => retryDelay (attempt + 1 + i))) →
          ∃ k, k ≤ f + 1 ∧
            postsOf (.sleep (retryDelay attempt) :: .post pay 30000 :: r.2) =
              List.replicate k (pay, 30000) ∧
            sleepsOf (.sleep (retryDelay attempt) :: .post pay 30000 :: r.2) =
              (List.range k).map (fun i => retryDelay (attempt + i)) := by
        rintro r ⟨k, hk, hp, hs⟩
        refine ⟨k + 1, by omega, ?_, ?_⟩
        · simp only [postsOf, List.filterMap_cons] at hp ⊢
          rw [hp, List.replicate_succ (pay, 30000) k]
        · simp only [sleepsOf, List.filterMap_cons] at hs ⊢
          rw [hs, List.range_succ_eq_map k, List.map_cons, List.map_map]
          congr 1
          refine List.map_congr_left ?_
          intro a _
          show retryDelay (attempt + 1 + a) = retryDelay (attempt + Nat.succ a)
          congr 1
          omega
      have base : ∃ k, k ≤ f + 1 ∧
          postsOf [PEvent.sleep (retryDelay attempt), .post pay 30000] =
            List.replicate k (pay, 30000) ∧
          sleepsOf [PEvent.sleep (retryDelay attempt), .post pay 30000] =
            (List.range k).map (fun i => retryDelay (attempt + i)) := by
        refine ⟨1, by omega, rfl, ?_⟩
        simp [sleepsOf, List.range_succ]
      show ∃ k, k ≤ f + 1 ∧
        postsOf (runRetries responses pay attempt (f + 1)).2 = _ ∧
        sleepsOf (runRetries responses pay attempt (f + 1)).2 = _
      rw [runRetries]
      cases hax : axiosPost (responses attempt) with
      | ok s =>
          by_cases hs : s = 200
          · simpa [hs] using base
          · simpa [hs] using step _ (ih (attempt + 1))
      | error msg =>
          by_cases ha : attempt = maxRetries
          · simpa [ha] using base
          · simpa [ha] using step _ (ih (attempt + 1))

/-- A run of the retry loop with at least one remaining iteration emits
at least two events. -/
theorem runRetries_two_le (responses : Nat → HttpAttempt) (pay : Payload)
    (fuel attempt : Nat) :
    2 ≤ (runRetries responses pay attempt (fuel + 1)).2.length := by
  rw [runRetries]
  cases axiosPost (responses attempt) with
  | ok s =>
      by_cases hs : s = 200 <;> simp [hs]
  | error msg =>
      by_cases ha : attempt = maxRetries <;> simp [ha]

/-- If the initial POST meets a 200, `submitEvaluation` returns the
success outcome immediately, having posted exactly once. -/
theorem submitEvaluation_first200 (d : EvaluationData)
    (responses : Nat → HttpAttempt) (h : responses 0 = .response 200) :
    submitEvaluation d responses = (.success, [.post (mkPayload d) 30000]) := by
  rw [submitEvaluation, h]
  rfl

/-- C3.  For every run of the evaluation notifier there is a number
`k ≤ 5` of retries actually made: the POSTs are exactly `k + 1` (so never
more than 6) identical posts of the built payload with the 30000ms
timeout, and the sleeps are, in order, `1000 * 2 ^ (n - 1)` milliseconds
before retry attempt `n` for `n = 1 .. k` — no jitter. -/
theorem C3_notifier_backoff (d : EvaluationData) (responses : Nat → HttpAttempt) :
    ∃ k, k ≤ 5 ∧
      postsOf (submitEvaluation d responses).2 =
        List.replicate (k + 1) (mkPayload d, 30000) ∧
      sleepsOf (submitEvaluation d responses).2 =
        (List.range k).map (fun i => 1000 * 2 ^ i) := by
  have conv : ∀ (r : NotifyResult × List PEvent),
      (∃ k, k ≤ maxRetries ∧ postsOf r.2 = List.replicate k (mkPayload d, 30000) ∧
        sleepsOf r.2 = (List.range k).map (fun i => retryDelay (1 + i))) →
      ∃ k, k ≤ 5 ∧
        postsOf (.post (mkPayload d) 30000 :: r.2) =
          List.replicate (k + 1) (mkPayload d, 30000) ∧
        sleepsOf (.post (mkPayload d) 30000 :: r.2) =
          (List.range k).map (fun i => 1000 * 2 ^ i) := by
    rintro r ⟨k, hk, hp, hs⟩
    refine ⟨k, hk, ?_, ?_⟩
    · simp only [postsOf, List.filterMap_cons] at hp ⊢
      rw [hp, List.replicate_succ (mkPayload d, 30000) k]
    · simp only [sleepsOf, List.filterMap_cons] at hs ⊢
      rw [hs]
      refine List.map_congr_left ?_
      intro a _
      show retryDelay (1 + a) = 1000 * 2 ^ a
      rw [retryDelay, baseDelay]
      congr 1
      congr 1
      omega
  rw [submitEvaluation]
  cases hax : axiosPost (responses 0) with
  | ok s =>
      by_cases hs : s = 200
      · subst hs
        exact ⟨0, by omega, rfl, rfl⟩
      · simpa [hs] using conv _ (runRetries_spec responses (mkPayload d) maxRetries 1)
  | error msg =>
      simpa using conv _ (runRetries_spec responses (mkPayload d) maxRetries 1)

/-! ## General lemmas about the pipeline trace -/

/-- A trace ending in the removal of `dir` leaves `dir` absent. -/
theorem dirExistsAfter_snoc_removeDir (dir : String) (evs : List PEvent) :
    dirExistsAfter dir (evs ++ [.removeDir dir]) = false := by
  rw [dirExistsAfter, List.foldl_append]
  simp

/-- The `finally` of `processAppRequest` removes the temp directory on
every exit path: no terminal state leaves the workspace behind. -/
theorem dirExistsAfter_processAppRequest (req : RequestData) (isUpdate : Bool)
    (w : World) :
    dirExistsAfter (tempDirOf (req.task ++ "-" ++ w.uuidSuffix))
      (processAppRequest req isUpdate w).2 = false := by
  rw [processAppRequest]
  rw [show ∀ (e : PEvent) (l1 l2 : List PEvent), e :: l1 ++ l2 = (e :: l1) ++ l2
        from fun _ _ _ => rfl]
  exact dirExistsAfter_snoc_removeDir _ _

/-- File writes contribute no POST events. -/
theorem postsOf_writes (f : String × String → String) (l : List (String × String)) :
    postsOf (l.map (fun kv => PEvent.writeFile (f kv))) = [] := by
  induction l with
  | nil => rfl
  | cons h t ih => simpa [postsOf, List.filterMap_cons] using ih

/-- Against a callback answering HTTP 500 on every attempt, the notifier
makes the initial POST and all 5 retries with their exact backoff sleeps
and then throws the terminal error. -/
theorem submitEvaluation_all500 (d : EvaluationData) :
    submitEvaluation d notifyAll500 =
      (.thrown ("Failed to submit evaluation after 5 attempts: Request failed with status code 500"),
       [.post (mkPayload d) 30000, .sleep 1000, .post (mkPayload d) 30000,
        .sleep 2000, .post (mkPayload d) 30000, .sleep 4000,
        .post (mkPayload d) 30000, .sleep 8000, .post (mkPayload d) 30000,
        .sleep 16000, .post (mkPayload d) 30000]) := rfl

/-- C5.  For every pipeline run — whatever the outcomes of generation,
provisioning, publishing and notification — the workspace directory no
longer exists once the run terminates; and when remote repository
creation fails, the run additionally makes no notification POST and
rethrows the provisioning error. -/
theorem C5_workspace_cleanup (req : RequestData) (isUpdate : Bool) (w : World) :
    dirExistsAfter (tempDirOf (req.task ++ "-" ++ w.uuidSuffix))
      (processAppRequest req isUpdate w).2 = false
    ∧ ∀ st, w.repoCreate = .httpError st →
        postsOf (processAppRequest req isUpdate w).2 = []
        ∧ (processAppRequest req isUpdate w).1 =
            .error (.thrown (repoCreateFailMsg st)) := by
  refine ⟨dirExistsAfter_processAppRequest req isUpdate w, ?_⟩
  intro st hst
  rw [processAppRequest, processInner, hst]
  constructor
  · simp only [createGitHubRepo, postsOf, List.filterMap_cons, List.filterMap_append]
    have hw := postsOf_writes
      (fun kv => tempDirOf (req.task ++ "-" ++ w.uuidSuffix) ++ "/" ++ kv.1)
      (generateAppWithLLM req.brief req.attachments req.checks isUpdate w.llm)
    simp only [postsOf] at hw
    rw [hw]
    rfl
  · rfl

/-- C5 witness: the concrete Scenario D world, where repository creation
is rejected with a 403. -/
theorem C5_workspace_cleanup_witness :
    dirExistsAfter (tempDirOf (reqA.task ++ "-" ++ worldRepoFail.uuidSuffix))
      (processAppRequest reqA false worldRepoFail).2 = false
    ∧ postsOf (processAppRequest reqA false worldRepoFail).2 = [] := by
  have h := C5_workspace_cleanup reqA false worldRepoFail
  exact ⟨h.1, (h.2 (some 403) rfl).1⟩

/-- C1 counterexample.  Scenario C run in full: the evaluation callback
answers HTTP 500 on all 6 attempts, everything upstream succeeds — but
`processAppRequest` ends in a thrown terminal notification error, so the
route answers with the generic 500 error body: the caller receives no
repository URL, no commit identifier, no pages URL and no
`evaluation_submitted` flag, contradicting the claimed
`NotificationFailed` result with `evaluationSubmitted = false`. -/
theorem C1_counterexample :
    (processAppRequest reqA false worldNotify500).1 =
      .error (.thrown ("Failed to submit evaluation after 5 attempts: Request failed with status code 500"))
    ∧ apiRoutePost reqA worldNotify500 =
        .serverError ("Failed to process app request") := by
  exact ⟨rfl, rfl⟩

/-- C1 as amended.  When every notification attempt meets an HTTP 500 (and
the earlier stages succeed), `submitEvaluation` throws after its 6 POSTs,
the pipeline aborts with that error instead of returning a result, and
the route surfaces the generic failure body; the workspace is still
removed, while the created repository is left standing (the pipeline has
no rollback operation). -/
theorem C1_amended (req : RequestData) (w : World) (resp : RepoCreateResponse)
    (tok : String) (hrc : w.repoCreate = .ok resp)
    (htok : w.gitEnv.githubToken = some tok) (hpg : w.pagesEnable = .ok)
    (hn : ∀ n, w.notify n = .response 500) :
    (processAppRequest req false w).1 =
      .error (.thrown ("Failed to submit evaluation after 5 attempts: Request failed with status code 500"))
    ∧ apiRoutePost req w = .serverError ("Failed to process app request")
    ∧ (postsOf (processAppRequest req false w).2).length = 6
    ∧ PEvent.createRepo (req.task ++ "-" ++ w.uuidSuffix) ∈
        (processAppRequest req false w).2
    ∧ dirExistsAfter (tempDirOf (req.task ++ "-" ++ w.uuidSuffix))
        (processAppRequest req false w).2 = false := by
  have hclean := dirExistsAfter_processAppRequest req false w
  obtain ⟨suffix, llm, rc, env, pg, notify⟩ := w
  obtain ⟨username, semail, gtok, org, hash⟩ := env
  dsimp only at hrc htok hpg hn hclean ⊢
  subst hrc htok hpg
  have hn2 : notify = notifyAll500 := funext hn
  subst hn2
  refine ⟨?_, ?_, ?_, ?_, hclean⟩
  · simp only [processAppRequest, processInner, createGitHubRepo, deployToPages,
      submitEvaluation_all500]
  · simp only [apiRoutePost, processAppRequest, processInner, createGitHubRepo,
      deployToPages, submitEvaluation_all500]
  · simp only [processAppRequest, processInner, createGitHubRepo, deployToPages,
      submitEvaluation_all500, postsOf, List.filterMap_cons, List.filterMap_append]
    have hw := postsOf_writes
      (fun kv => tempDirOf (req.task ++ "-" ++ suffix) ++ "/" ++ kv.1)
      (generateAppWithLLM req.brief req.attachments req.checks false llm)
    simp only [postsOf] at hw
    rw [hw]
    rfl
  · simp only [processAppRequest, processInner, createGitHubRepo, deployToPages,
      submitEvaluation_all500, List.mem_cons, List.mem_append]
    simp

/-- C1 witness: the amended statement at the concrete Scenario C world. -/
theorem C1_amended_witness :
    (processAppRequest reqA false worldNotify500).1 =
      .error (.thrown ("Failed to submit evaluation after 5 attempts: Request failed with status code 500"))
    ∧ apiRoutePost reqA worldNotify500 =
        .serverError ("Failed to process app request")
    ∧ (postsOf (processAppRequest reqA false worldNotify500).2).length = 6 := by
  have h := C1_amended reqA worldNotify500
    (repoRespFor ("test-app-123-aaaaaaaa")) ("tok") rfl rfl rfl (fun _ => rfl)
  exact ⟨h.1, h.2.1, h.2.2.1⟩

/-- C2: code evaluation at the failing input.  Round 1 of task
`test-app-123` provisions `test-app-123-aaaaaaaa`; the round-2 update
invocation for the same task then sends a create-repository request for
the differently named `test-app-123-bbbbbbbb` — it does not reuse the
round-1 repository — and the whole update run succeeds that way. -/
theorem C2_update_provisions_new_repo :
    createReposOf (processAppRequest reqA false worldRound1).2 =
      [("test-app-123-aaaaaaaa")]
    ∧ createReposOf (processAppRequest reqB true worldRound2).2 =
        [("test-app-123-bbbbbbbb")]
    ∧ (processAppRequest reqB true worldRound2).1 =
        .ok { repo_url := "https://github.com/user/test-app-123-bbbbbbbb",
              commit_sha := "abc123def456",
              pages_url := "https://user.github.io/test-app-123-bbbbbbbb/",
              evaluation_submitted := true } :=
  ⟨rfl, rfl, rfl⟩

/-- C6: code evaluation at the failing input.  The round-2 update
invocation commits with the fixed initial-commit message and never with
the update-distinguishing one; the update message exists only in
`updateRepository`, which the pipeline never calls. -/
theorem C6_update_commits_initial_message :
    commitsOf (processAppRequest reqB true worldRound2).2 =
      [("Initial commit: Auto-generated application")]
    ∧ ("Update: Modified application") ∉
        commitsOf (processAppRequest reqB true worldRound2).2
    ∧ commitsOf (updateRepository ("test-app-123-aaaaaaaa") gitEnvA).2 =
        [("Update: Modified application")] := by
  refine ⟨rfl, ?_, rfl⟩
  decide

/-- C7.  The Pages publisher treats the 409 "already configured" conflict
exactly like a success: the result is `ok` with `enabled = true` and the
public URL derived purely textually from owner and repository name, after
the fixed 5000ms settling sleep and with no polling; every other enable
failure is rethrown as-is. -/
theorem C7_pages_conflict_is_success (repoName ownerLoginParam : String)
    (env : GitEnv) :
    (deployToPages repoName ownerLoginParam env (.httpError 409)).1 =
      .ok { pagesUrl := pagesUrlOf
              (if ownerLoginParam = "" then env.username else ownerLoginParam)
              repoName,
            enabled := true }
    ∧ (deployToPages repoName ownerLoginParam env .ok).1 =
        .ok { pagesUrl := pagesUrlOf
                (if ownerLoginParam = "" then env.username else ownerLoginParam)
                repoName,
              enabled := true }
    ∧ sleepsOf (deployToPages repoName ownerLoginParam env (.httpError 409)).2 = [5000]
    ∧ sleepsOf (deployToPages repoName ownerLoginParam env .ok).2 = [5000]
    ∧ ∀ s, s ≠ 409 →
        (deployToPages repoName ownerLoginParam env (.httpError s)).1 = .error s := by
  refine ⟨?_, ?_, ?_, ?_, ?_⟩
  · simp [deployToPages]
  · simp [deployToPages]
  · simp [deployToPages, sleepsOf]
  · simp [deployToPages, sleepsOf]
  · intro s hs
    simp [deployToPages, hs]

/-- C7 witness: a 409 at a concrete input is a success with the textual
URL, and a 500 at the same input is the error. -/
theorem C7_pages_conflict_is_success_witness :
    (deployToPages ("test-app-123-aaaaaaaa") ("user") gitEnvA (.httpError 409)).1 =
      .ok { pagesUrl := "https://user.github.io/test-app-123-aaaaaaaa/",
            enabled := true }
    ∧ (deployToPages ("test-app-123-aaaaaaaa") ("user") gitEnvA (.httpError 500)).1 =
        .error 500 := by
  have h := C7_pages_conflict_is_success ("test-app-123-aaaaaaaa") ("user") gitEnvA
  exact ⟨h.1, h.2.2.2.2 500 (by decide)⟩

/-- C8 counterexample.  An initial response with the success-class status
201 does not terminate the protocol successfully: the notifier enters the
retry loop (all five backoff sleeps happen) and, with every retry also
answering 201, exits with no outcome at all rather than a delivered
one. -/
theorem C8_counterexample :
    (submitEvaluation evalDataA notifyAll201).1 = .undefinedReturn
    ∧ sleepsOf (submitEvaluation evalDataA notifyAll201).2 =
        [1000, 2000, 4000, 8000, 16000] :=
  ⟨rfl, rfl⟩

/-- C8 as amended.  Only HTTP status 200 makes an attempt a successful
delivery: the notifier returns the success outcome immediately after a
single POST exactly when the initial response status is 200; any other
status — success-class or not — sends it into the retry loop. -/
theorem C8_only_200_delivers (d : EvaluationData)
    (responses : Nat → HttpAttempt) (s : Nat) (h : responses 0 = .response s) :
    (submitEvaluation d responses = (.success, [.post (mkPayload d) 30000]))
      ↔ s = 200 := by
  constructor
  · intro heq
    by_contra hs
    have hlen : (submitEvaluation d responses).2.length = 1 := by rw [heq]; rfl
    have h2 : 2 ≤ (runRetries responses (mkPayload d) 1 maxRetries).2.length :=
      runRetries_two_le responses (mkPayload d) 4 1
    simp only [submitEvaluation, h, axiosPost] at hlen
    by_cases hrange : 200 ≤ s ∧ s < 300
    · rw [if_pos hrange] at hlen
      dsimp only at hlen
      rw [if_neg hs] at hlen
      simp only [List.length_cons] at hlen
      omega
    · rw [if_neg hrange] at hlen
      dsimp only at hlen
      simp only [List.length_cons] at hlen
      omega
  · intro hs
    subst hs
    exact submitEvaluation_first200 d responses h

/-- C8 witness: with status exactly 200 on the initial attempt, the
notifier delivers in one POST. -/
theorem C8_only_200_delivers_witness :
    submitEvaluation evalDataA notifyAll200 =
      (.success, [.post (mkPayload evalDataA) 30000]) :=
  (C8_only_200_delivers evalDataA notifyAll200 200 rfl).mpr rfl

/-- C9.  With the initial attempt rejected (HTTP 500) and every retry
resolving with HTTP 201, `submitEvaluation` exits its loop with no return
value — neither the success outcome nor the terminal error — and the
orchestrator's read of `.success` on that `undefined` is a `TypeError`
that aborts the run. -/
theorem C9_undefined_notification_outcome :
    (submitEvaluation evalDataA notify500then201).1 = .undefinedReturn
    ∧ (processAppRequest reqA false worldNotify201).1 =
        .error (.typeError ("Cannot read properties of undefined (reading \x27success\x27)")) :=
  ⟨rfl, rfl⟩

/-- C10.  A provided secret whose byte length differs from the (nonempty)
configured secret makes `crypto.timingSafeEqual` throw, so the middleware
ends in a thrown exception, not in the 401 response; conversely the 401
response is only reachable for a wrong secret of exactly the expected
byte length. -/
theorem C10_length_mismatch_throws (prov exp : List Nat) (hexp : exp ≠ [])
    (hlen : prov.length ≠ exp.length) :
    verifySecret (some prov) (some exp) =
      .thrown ("Input buffers must have the same byte length")
    ∧ ∀ p e, verifySecret p e = .response 401 ("Invalid secret") →
        ∃ pb eb, p = some pb ∧ e = some eb
          ∧ pb.length = eb.length ∧ pb ≠ eb := by
  constructor
  · simp [verifySecret, timingSafeEqual, hexp, hlen]
  · intro p e h
    match e with
    | none => simp [verifySecret] at h
    | some eb =>
      match p with
      | none =>
          by_cases hb : eb = [] <;> simp [verifySecret, hb] at h
      | some pb =>
          by_cases hb : eb = []
          · simp [verifySecret, hb] at h
          · by_cases hl : pb.length = eb.length
            · by_cases hpe : pb = eb
              · simp [verifySecret, timingSafeEqual, hb, hl, hpe] at h
              · exact ⟨pb, eb, rfl, rfl, hl, hpe⟩
            · simp [verifySecret, timingSafeEqual, hb, hl] at h

/-- C10 witness: a 2-byte secret against a 1-byte configured secret
throws the length error. -/
theorem C10_length_mismatch_throws_witness :
    verifySecret (some [1, 2]) (some [1]) =
      .thrown ("Input buffers must have the same byte length") :=
  (C10_length_mismatch_throws [1, 2] [1] (by decide) (by decide)).1

/-- Every attachment's name occurs verbatim in the fallback attachment
paragraph list. -/
theorem fallbackAttachmentLines_mem (atts : List Attachment) (a : Attachment)
    (ha : a ∈ atts) :
    ∃ pre post, fallbackAttachmentLines atts = pre ++ a.name ++ post := by
  induction atts with
  | nil => cases ha
  | cons hd t ih =>
      rcases List.mem_cons.mp ha with rfl | hm
      · refine ⟨"<p>Attachment: ", "</p>" ++ fallbackAttachmentLines t, ?_⟩
        simp [fallbackAttachmentLines, String.append_assoc]
      · obtain ⟨pre, post, hp⟩ := ih hm
        refine ⟨"<p>Attachment: " ++ hd.name ++ "</p>" ++ pre, post, ?_⟩
        simp [fallbackAttachmentLines, hp, String.append_assoc]

/-- C4.  Whenever the generative capability fails — missing credential,
call error, or unparseable response — the generator returns the
deterministic fallback skeleton, whose entry page embeds the brief text
and every attachment name verbatim; and with the downstream stages
healthy the pipeline still completes with an `ok` result. -/
theorem C4_fallback_keeps_pipeline_alive (req : RequestData) (isUpdate : Bool)
    (w : World) (resp : RepoCreateResponse) (tok : String)
    (hllm : LLMFailed w.llm) (hrc : w.repoCreate = .ok resp)
    (htok : w.gitEnv.githubToken = some tok) (hpg : w.pagesEnable = .ok)
    (hn : w.notify 0 = .response 200) :
    generateAppWithLLM req.brief req.attachments req.checks isUpdate w.llm =
      createFallbackApp req.brief req.attachments
    ∧ (∃ pre post,
        fallbackIndexHtml req.brief req.attachments = pre ++ req.brief ++ post)
    ∧ (∀ a ∈ req.attachments, ∃ pre post,
        fallbackIndexHtml req.brief req.attachments = pre ++ a.name ++ post)
    ∧ ∃ r, (processAppRequest req isUpdate w).1 = .ok r := by
  refine ⟨?_, ?_, ?_, ?_⟩
  · cases hl : w.llm with
    | parsed files =>
        rw [hl] at hllm
        exact absurd hllm (by simp [LLMFailed])
    | noApiKey => rfl
    | apiError m => rfl
    | unparseable raw => rfl
  · refine ⟨fallbackIndexHtmlPre,
      fallbackIndexHtmlMid ++ (fallbackAttachmentLines req.attachments
        ++ fallbackIndexHtmlSuf), ?_⟩
    simp [fallbackIndexHtml, String.append_assoc]
  · intro a ha
    obtain ⟨pre, post, hp⟩ := fallbackAttachmentLines_mem req.attachments a ha
    refine ⟨fallbackIndexHtmlPre ++ req.brief ++ fallbackIndexHtmlMid ++ pre,
      post ++ fallbackIndexHtmlSuf, ?_⟩
    simp [fallbackIndexHtml, hp, String.append_assoc]
  · obtain ⟨suffix, llm, rc, env, pg, notify⟩ := w
    obtain ⟨username, semail, gtok, org, hash⟩ := env
    dsimp only at hrc htok hpg hn ⊢
    subst hrc htok hpg
    simp only [processAppRequest, processInner, createGitHubRepo, deployToPages]
    rw [submitEvaluation_first200 _ notify hn]
    exact ⟨_, rfl⟩

/-- C4 witness: with no credential configured and a healthy downstream
world, the generator yields the fallback skeleton and the pipeline
completes. -/
theorem C4_fallback_keeps_pipeline_alive_witness :
    generateAppWithLLM reqA.brief reqA.attachments reqA.checks false
      worldLLMFail.llm = createFallbackApp reqA.brief reqA.attachments
    ∧ ∃ r, (processAppRequest reqA false worldLLMFail).1 = .ok r := by
  have h := C4_fallback_keeps_pipeline_alive reqA false worldLLMFail
    (repoRespFor ("test-app-123-aaaaaaaa")) ("tok") trivial rfl rfl rfl rfl
  exact ⟨h.1, h.2.2.2⟩

end Proj1
